import Mathlib

/-!
Verification development for the restricted expression evaluator and the two
helper functions of `simple_calculator_and_helpers.py` (file `src/calculator.py`).

The evaluator `safe_eval` is embedded shallowly:

* the input is either a string or a non-string object (`PyInput`);
* the denylist screen is the literal list of forbidden substrings of the
  source, checked case-insensitively as a substring of the lowered input;
* the call `eval(expr, {"__builtins__": {}}, _ALLOWED_NAMES)` is modelled by a
  lexer/parser for the Python expression grammar fragment the restricted
  environment can exercise (non-negative decimal integer literals,
  identifiers, calls `f(a, b, ...)` on identifiers, parentheses, the binary
  operators `+ - * / // % **` with Python precedence and associativity, unary
  `+`/`-`, and spaces), followed by an evaluator over that AST;
* Python exceptions are the inductive `PyExc`; the wrapper of `safe_eval`
  re-raises `ZeroDivisionError` and converts every other exception to
  `ValueError ("Invalid expression: " ++ message)` exactly as the source does.

Python floats are idealized as real numbers (`ℝ`), with the non-finite floats
`inf`, `-inf` and `nan` as separate constructors; overflow of finite floats is
not modelled.  Arithmetic on the non-finite constructors is modelled coarsely
(see `specialBin`): no property proved below depends on it.  Functions of the
`math` module whose value no property depends on are modelled as returning an
unspecified float (`FnSem.other`); the name table itself is complete, so name
lookup succeeds and fails exactly as in the source.
-/

/-- Python exceptions that the modelled fragment can raise. -/
inductive PyExc where
  | zeroDiv
  | valueError (msg : String)
  | nameError (name : String)
  | typeError (msg : String)
  | syntaxError (msg : String)
  | overflowError (msg : String)
  deriving DecidableEq

/-- Single quote character, used in Python error messages. -/
def quoteCh : String := String.singleton (Char.ofNat 39)

/-- Rendering of an exception as Python's `str(e)`, used by the source's
f-string `f"Invalid expression: {e}"`. -/
def excMsg : PyExc → String
  | .zeroDiv => "division by zero"
  | .valueError m => m
  | .nameError n => "name " ++ quoteCh ++ n ++ quoteCh ++ " is not defined"
  | .typeError m => m
  | .syntaxError m => m
  | .overflowError m => m

/-- Names of the functions of the permitted-name table whose numeric
semantics the development models precisely, plus `other` for the remaining
public `math`-module functions (their values are unspecified and no theorem
depends on them). -/
inductive FnSem where
  | sqrtF | sinF | cosF | tanF | expF | logF | gammaF | floorF | ceilF
  | fabsF | factorialF
  | absB | roundB | minB | maxB | powB
  | other (name : String)
  deriving DecidableEq

/-- Python values producible by the restricted evaluator: integers, finite
floats (idealized as reals), the non-finite floats, and function objects
(a bare identifier such as `sqrt` evaluates to the function itself). -/
inductive Value where
  | int (n : ℤ)
  | real (x : ℝ)
  | inf | ninf | nan
  | fnv (f : FnSem)

/-- An entry of the permitted-name table: a constant or a function. -/
inductive NameVal where
  | constV (v : Value)
  | fnV (f : FnSem)

/-- Argument type of `safe_eval`: a string, or any non-string object
(identified only by an opaque tag, since the source rejects it without
inspecting it further). -/
inductive PyInput where
  | str (s : String)
  | nonString (tag : String)

/-- Tokens of the modelled Python expression fragment. -/
inductive Tok where
  | num (n : Nat)
  | id (s : String)
  | plus | minus | star | slash | dslash | percent | dstar
  | lparen | rparen | comma
  deriving DecidableEq

/-- Binary operators of the fragment. -/
inductive BOp where
  | add | sub | mul | div | floordiv | mod | pow
  deriving DecidableEq

/-- Unary operators of the fragment. -/
inductive UOp where
  | neg | pos
  deriving DecidableEq

/-- Abstract syntax of the modelled Python expression fragment. -/
inductive Expr where
  | num (n : Nat)
  | name (s : String)
  | call (f : String) (args : List Expr)
  | unop (u : UOp) (e : Expr)
  | binop (b : BOp) (l r : Expr)

/-- Numeric value of a digit character. -/
def digitVal (c : Char) : Nat := c.toNat - 48

/-- Reads a run of decimal digits, accumulating its value. -/
def readNum : List Char → Nat → Nat × List Char
  | c :: cs, acc =>
      if c.isDigit then readNum cs (acc * 10 + digitVal c) else (acc, c :: cs)
  | [], acc => (acc, [])

/-- Characters allowed after the first character of an identifier. -/
def isIdentChar (c : Char) : Bool := c.isAlphanum || c = '_'

/-- Reads a run of identifier characters, accumulating them in reverse. -/
def readIdent : List Char → List Char → List Char × List Char
  | c :: cs, acc =>
      if isIdentChar c then readIdent cs (c :: acc) else (acc.reverse, c :: cs)
  | [], acc => (acc.reverse, [])

/-- Lexer for the fragment; `none` models a `SyntaxError` from tokenization.
The fuel argument strictly exceeds the input length, so it never runs out. -/
def lexT : Nat → List Char → Option (List Tok)
  | _, [] => some []
  | 0, _ => none
  | f + 1, c :: cs =>
    if c = ' ' then lexT f cs
    else if c.isDigit then
      let p := readNum (c :: cs) 0
      (lexT f p.2).map (fun ts => .num p.1 :: ts)
    else if c.isAlpha || c = '_' then
      let p := readIdent (c :: cs) []
      (lexT f p.2).map (fun ts => .id (String.mk p.1) :: ts)
    else if c = '*' then
      match cs with
      | d :: cs2 =>
          if d = '*' then (lexT f cs2).map (fun ts => .dstar :: ts)
          else (lexT f cs).map (fun ts => .star :: ts)
      | [] => some [.star]
    else if c = '/' then
      match cs with
      | d :: cs2 =>
          if d = '/' then (lexT f cs2).map (fun ts => .dslash :: ts)
          else (lexT f cs).map (fun ts => .slash :: ts)
      | [] => some [.slash]
    else if c = '+' then (lexT f cs).map (fun ts => .plus :: ts)
    else if c = '-' then (lexT f cs).map (fun ts => .minus :: ts)
    else if c = '%' then (lexT f cs).map (fun ts => .percent :: ts)
    else if c = '(' then (lexT f cs).map (fun ts => .lparen :: ts)
    else if c = ')' then (lexT f cs).map (fun ts => .rparen :: ts)
    else if c = ',' then (lexT f cs).map (fun ts => .comma :: ts)
    else none

/-- Tokenization of a whole string. -/
def lex (s : String) : Option (List Tok) := lexT (s.length + 1) s.data

mutual
/-- Additive level: `term (('+'|'-') term)*`, left associative. -/
def pExpr : Nat → List Tok → Option (Expr × List Tok)
  | 0, _ => none
  | f + 1, ts =>
    match pTerm f ts with
    | none => none
    | some (e, ts2) => pExprLoop f e ts2

/-- Left-associative loop for `+` and `-`. -/
def pExprLoop : Nat → Expr → List Tok → Option (Expr × List Tok)
  | 0, _, _ => none
  | f + 1, e, .plus :: ts =>
    match pTerm f ts with
    | none => none
    | some (e2, ts2) => pExprLoop f (.binop .add e e2) ts2
  | f + 1, e, .minus :: ts =>
    match pTerm f ts with
    | none => none
    | some (e2, ts2) => pExprLoop f (.binop .sub e e2) ts2
  | _ + 1, e, ts => some (e, ts)

/-- Multiplicative level: `factor (('*'|'/'|'//'|'%') factor)*`. -/
def pTerm : Nat → List Tok → Option (Expr × List Tok)
  | 0, _ => none
  | f + 1, ts =>
    match pFactor f ts with
    | none => none
    | some (e, ts2) => pTermLoop f e ts2

/-- Left-associative loop for `*`, `/`, `//`, `%`. -/
def pTermLoop : Nat → Expr → List Tok → Option (Expr × List Tok)
  | 0, _, _ => none
  | f + 1, e, .star :: ts =>
    match pFactor f ts with
    | none => none
    | some (e2, ts2) => pTermLoop f (.binop .mul e e2) ts2
  | f + 1, e, .slash :: ts =>
    match pFactor f ts with
    | none => none
    | some (e2, ts2) => pTermLoop f (.binop .div e e2) ts2
  | f + 1, e, .dslash :: ts =>
    match pFactor f ts with
    | none => none
    | some (e2, ts2) => pTermLoop f (.binop .floordiv e e2) ts2
  | f + 1, e, .percent :: ts =>
    match pFactor f ts with
    | none => none
    | some (e2, ts2) => pTermLoop f (.binop .mod e e2) ts2
  | _ + 1, e, ts => some (e, ts)

/-- Unary level: `('+'|'-')* power`; unary minus binds tighter than the
multiplicative operators but looser than `**` on its left. -/
def pFactor : Nat → List Tok → Option (Expr × List Tok)
  | 0, _ => none
  | f + 1, .minus :: ts => (pFactor f ts).map (fun p => (.unop .neg p.1, p.2))
  | f + 1, .plus :: ts => (pFactor f ts).map (fun p => (.unop .pos p.1, p.2))
  | f + 1, ts => pPower f ts

/-- Power level: `atom ('**' factor)?`, right associative. -/
def pPower : Nat → List Tok → Option (Expr × List Tok)
  | 0, _ => none
  | f + 1, ts =>
    match pAtom f ts with
    | none => none
    | some (e, .dstar :: ts2) =>
        (pFactor f ts2).map (fun p => (.binop .pow e p.1, p.2))
    | some (e, ts2) => some (e, ts2)

/-- Atoms: numbers, names, calls on names, parenthesized expressions. -/
def pAtom : Nat → List Tok → Option (Expr × List Tok)
  | 0, _ => none
  | _ + 1, .num n :: ts => some (.num n, ts)
  | f + 1, .id s :: .lparen :: ts =>
    (match ts with
     | .rparen :: ts2 => some (.call s [], ts2)
     | _ =>
       match pArgs f ts with
       | some (as, .rparen :: ts2) => some (.call s as, ts2)
       | _ => none)
  | _ + 1, .id s :: ts => some (.name s, ts)
  | f + 1, .lparen :: ts =>
    (match pExpr f ts with
     | some (e, .rparen :: ts2) => some (e, ts2)
     | _ => none)
  | _, _ => none

/-- Comma-separated nonempty argument list. -/
def pArgs : Nat → List Tok → Option (List Expr × List Tok)
  | 0, _ => none
  | f + 1, ts =>
    match pExpr f ts with
    | none => none
    | some (e, .comma :: ts2) =>
      (match pArgs f ts2 with
       | some (as, ts3) => some (e :: as, ts3)
       | none => none)
    | some (e, ts2) => some ([e], ts2)
end

/-- Parsing of a whole string; `none` models a `SyntaxError` (including the
empty string, for which Python's `eval` also raises `SyntaxError`). -/
def parse (s : String) : Option Expr :=
  match lex s with
  | none => none
  | some ts =>
    match pExpr (8 * (ts.length + 1)) ts with
    | some (e, []) => some e
    | _ => none

/-- The forbidden substrings of the source (`forbidden` in `safe_eval`). -/
def forbidden : List String :=
  ["__", "import", "os.", "sys.", "subprocess", "open(", "eval(", "exec("]

/-- Needle `n` is a prefix of `h` (over character lists). -/
def startsWithL : List Char → List Char → Bool
  | [], _ => true
  | _ :: _, [] => false
  | a :: as, b :: bs => a = b && startsWithL as bs

/-- Needle `n` occurs as a contiguous substring of `h`; this is Python's
`n in h` on strings. -/
def containsL (n : List Char) : List Char → Bool
  | [] => n.isEmpty
  | c :: cs => startsWithL n (c :: cs) || containsL n cs

/-- Python's `str.lower`, restricted to the ASCII range the denylist uses. -/
def pyLower (s : String) : String := String.mk (s.data.map Char.toLower)

/-- The denylist screen of `safe_eval`: some forbidden substring occurs in
the lowered expression.  The source's `for` loop raises at the first matching
token; since the exception raised is identical for every token, the loop is
equivalent to this existential check. -/
def hasForbidden (s : String) : Bool :=
  forbidden.any (fun t => containsL t.data (pyLower s).data)

/-- Names returned by `dir(math)` (CPython 3.11), used by the source's
comprehension `{k: getattr(math, k) for k in dir(math) if not k.startswith("_")}`.
Modelled from the platform's standard library, which is outside the repository. -/
def mathDirNames : List String :=
  ["__doc__", "__loader__", "__name__", "__package__", "__spec__",
   "acos", "acosh", "asin", "asinh", "atan", "atan2", "atanh", "cbrt", "ceil",
   "comb", "copysign", "cos", "cosh", "degrees", "dist", "e", "erf", "erfc",
   "exp", "exp2", "expm1", "fabs", "factorial", "floor", "fmod", "frexp",
   "fsum", "gamma", "gcd", "hypot", "inf", "isclose", "isfinite", "isinf",
   "isnan", "isqrt", "lcm", "ldexp", "lgamma", "log", "log10", "log1p",
   "log2", "modf", "nan", "nextafter", "perm", "pi", "pow", "prod",
   "radians", "remainder", "sin", "sinh", "sqrt", "tan", "tanh", "tau",
   "trunc", "ulp"]

/-- Python's `k.startswith("_")` on a name. -/
def underscorePrefixed (k : String) : Bool := startsWithL "_".data k.data

/-- The non-underscore-prefixed public names of the `math` module, i.e. the
keys of the comprehension on source lines 53-55. -/
def mathPublicNames : List String :=
  mathDirNames.filter (fun k => !underscorePrefixed k)

/-- Value of `getattr(math, k)` for each public name: the five numeric
constants and the functions; functions not needed by any property are
`FnSem.other`. -/
noncomputable def mathAttr (k : String) : NameVal :=
  if k = "pi" then .constV (.real Real.pi)
  else if k = "e" then .constV (.real (Real.exp 1))
  else if k = "tau" then .constV (.real (2 * Real.pi))
  else if k = "inf" then .constV .inf
  else if k = "nan" then .constV .nan
  else if k = "sqrt" then .fnV .sqrtF
  else if k = "sin" then .fnV .sinF
  else if k = "cos" then .fnV .cosF
  else if k = "tan" then .fnV .tanF
  else if k = "exp" then .fnV .expF
  else if k = "log" then .fnV .logF
  else if k = "gamma" then .fnV .gammaF
  else if k = "floor" then .fnV .floorF
  else if k = "ceil" then .fnV .ceilF
  else if k = "fabs" then .fnV .fabsF
  else if k = "factorial" then .fnV .factorialF
  else .fnV (.other k)

/-- The extra safe builtins added by `_ALLOWED_NAMES.update({...})` on source
lines 57-65.  The update runs after the `math` entries are built, so these
five shadow any `math` attribute of the same name — in particular `pow` is
the builtin `pow`, not `math.pow`. -/
def extraBuiltins : List (String × NameVal) :=
  [("abs", .fnV .absB), ("round", .fnV .roundB), ("min", .fnV .minB),
   ("max", .fnV .maxB), ("pow", .fnV .powB)]

/-- The permitted-name table `_ALLOWED_NAMES` of the source: every public
`math` name plus the five extra builtins.  Lookup is first-match, so listing
the updated entries first models the dict update's overwrite. -/
noncomputable def _ALLOWED_NAMES : List (String × NameVal) :=
  extraBuiltins ++ mathPublicNames.map (fun k => (k, mathAttr k))

/-- Finite numeric payload of a value (`none` on non-finite floats and
function objects). -/
noncomputable def toRQ : Value → Option ℝ
  | .int n => some (n : ℝ)
  | .real x => some x
  | _ => none

/-- The operators that raise `ZeroDivisionError` on a zero divisor. -/
def isDivLike : BOp → Bool
  | .div => true | .floordiv => true | .mod => true | _ => false

/-- A value equal to the number zero. -/
noncomputable def isZeroVal : Value → Bool
  | .int n => n = 0
  | .real x => decide (x = 0)
  | _ => false

/-- Binary arithmetic on two finite floats (Python float semantics,
idealized over ℝ; `/`, `//`, `%` raise `ZeroDivisionError` on a zero
divisor exactly as Python floats do). -/
noncomputable def realBin : BOp → ℝ → ℝ → Except PyExc Value
  | .add, x, y => .ok (.real (x + y))
  | .sub, x, y => .ok (.real (x - y))
  | .mul, x, y => .ok (.real (x * y))
  | .div, x, y => if y = 0 then .error .zeroDiv else .ok (.real (x / y))
  | .floordiv, x, y =>
      if y = 0 then .error .zeroDiv
      else .ok (.real ((Int.floor (x / y) : ℤ) : ℝ))
  | .mod, x, y =>
      if y = 0 then .error .zeroDiv
      else .ok (.real (x - y * ((Int.floor (x / y) : ℤ) : ℝ)))
  | .pow, x, y =>
      if x = 0 ∧ y < 0 then .error .zeroDiv
      else .ok (.real (Real.rpow x y))

/-- Coarse model of binary arithmetic when a non-finite float (`inf`,
`-inf`, `nan`) is involved: a zero divisor still raises
`ZeroDivisionError` and a zero exponent still yields `1.0`, as in Python;
every other such combination is modelled as an unspecified float (`nan`).
No property proved in this file depends on these cases. -/
noncomputable def specialBin (b : BOp) (_v w : Value) : Except PyExc Value :=
  if isDivLike b && isZeroVal w then .error .zeroDiv
  else if b = .pow && isZeroVal w then .ok (.real 1)
  else .ok .nan

/-- Binary operator semantics on values.  Integer pairs follow Python `int`
semantics (`//` and `%` are floor-based, `**` with a non-negative exponent
stays integral, `0 ** negative` raises `ZeroDivisionError`); pairs with a
finite float follow `realBin`; function objects are not valid operands. -/
noncomputable def binOp : BOp → Value → Value → Except PyExc Value
  | _, .fnv _, _ => .error (.typeError "unsupported operand type")
  | _, _, .fnv _ => .error (.typeError "unsupported operand type")
  | .add, .int a, .int b => .ok (.int (a + b))
  | .sub, .int a, .int b => .ok (.int (a - b))
  | .mul, .int a, .int b => .ok (.int (a * b))
  | .div, .int a, .int b =>
      if b = 0 then .error .zeroDiv else .ok (.real ((a : ℝ) / (b : ℝ)))
  | .floordiv, .int a, .int b =>
      if b = 0 then .error .zeroDiv else .ok (.int (Int.fdiv a b))
  | .mod, .int a, .int b =>
      if b = 0 then .error .zeroDiv else .ok (.int (Int.fmod a b))
  | .pow, .int a, .int b =>
      if 0 ≤ b then .ok (.int (a ^ b.toNat))
      else if a = 0 then .error .zeroDiv
      else .ok (.real ((a : ℝ) ^ b))
  | .div, .real x, .int b =>
      if b = 0 then .error .zeroDiv else .ok (.real (x / (b : ℝ)))
  | .floordiv, .real x, .int b =>
      if b = 0 then .error .zeroDiv
      else .ok (.real ((Int.floor (x / (b : ℝ)) : ℤ) : ℝ))
  | .mod, .real x, .int b =>
      if b = 0 then .error .zeroDiv
      else .ok (.real (x - (b : ℝ) * ((Int.floor (x / (b : ℝ)) : ℤ) : ℝ)))
  | b, v, w =>
    match toRQ v, toRQ w with
    | some x, some y => realBin b x y
    | _, _ => specialBin b v w

/-- Unary operator semantics. -/
noncomputable def unOp : UOp → Value → Except PyExc Value
  | .pos, .fnv _ => .error (.typeError "bad operand type for unary plus")
  | .pos, v => .ok v
  | .neg, .int n => .ok (.int (-n))
  | .neg, .real x => .ok (.real (-x))
  | .neg, .inf => .ok .ninf
  | .neg, .ninf => .ok .inf
  | .neg, .nan => .ok .nan
  | .neg, .fnv _ => .error (.typeError "bad operand type for unary minus")

/-- Strict `<` between two numeric values, with Python's convention that
every comparison against `nan` is false.  Used by `min`/`max`. -/
noncomputable def vlt : Value → Value → Bool
  | .nan, _ => false
  | _, .nan => false
  | .int m, .int n => decide (m < n)
  | .int m, .real y => decide ((m : ℝ) < y)
  | .real x, .int n => decide (x < (n : ℝ))
  | .real x, .real y => decide (x < y)
  | .ninf, .ninf => false
  | .ninf, _ => true
  | _, .ninf => false
  | .inf, _ => false
  | _, .inf => true
  | .fnv _, _ => false
  | _, .fnv _ => false

/-- A value that is a function object (not a number). -/
def isFnVal : Value → Bool
  | .fnv _ => true
  | _ => false

/-- Python's banker's rounding of a real to an integer. -/
noncomputable def roundHalfEven (x : ℝ) : ℤ :=
  let f := Int.floor x
  if x - f < 1 / 2 then f
  else if x - f > 1 / 2 then f + 1
  else if Even f then f else f + 1

/-- Semantics of the modelled functions of the permitted-name table.
Wrong arity and function-object arguments raise `TypeError`; domain
violations raise `ValueError "math domain error"` as the `math` module does;
`math.floor`/`math.ceil` on non-finite floats raise as CPython does.
Functions tagged `FnSem.other` return an unspecified float. -/
noncomputable def applyFn : FnSem → List Value → Except PyExc Value
  | .sqrtF, [.int n] =>
      if n < 0 then .error (.valueError "math domain error")
      else .ok (.real (Real.sqrt (n : ℝ)))
  | .sqrtF, [.real x] =>
      if x < 0 then .error (.valueError "math domain error")
      else .ok (.real (Real.sqrt x))
  | .sqrtF, [.inf] => .ok .inf
  | .sqrtF, [.ninf] => .error (.valueError "math domain error")
  | .sqrtF, [.nan] => .ok .nan
  | .sinF, [.int n] => .ok (.real (Real.sin (n : ℝ)))
  | .sinF, [.real x] => .ok (.real (Real.sin x))
  | .sinF, [.inf] => .error (.valueError "math domain error")
  | .sinF, [.ninf] => .error (.valueError "math domain error")
  | .sinF, [.nan] => .ok .nan
  | .cosF, [.int n] => .ok (.real (Real.cos (n : ℝ)))
  | .cosF, [.real x] => .ok (.real (Real.cos x))
  | .cosF, [.inf] => .error (.valueError "math domain error")
  | .cosF, [.ninf] => .error (.valueError "math domain error")
  | .cosF, [.nan] => .ok .nan
  | .tanF, [.int n] => .ok (.real (Real.tan (n : ℝ)))
  | .tanF, [.real x] => .ok (.real (Real.tan x))
  | .tanF, [.inf] => .error (.valueError "math domain error")
  | .tanF, [.ninf] => .error (.valueError "math domain error")
  | .tanF, [.nan] => .ok .nan
  | .expF, [.int n] => .ok (.real (Real.exp (n : ℝ)))
  | .expF, [.real x] => .ok (.real (Real.exp x))
  | .expF, [.inf] => .ok .inf
  | .expF, [.ninf] => .ok (.real 0)
  | .expF, [.nan] => .ok .nan
  | .logF, [.int n] =>
      if n ≤ 0 then .error (.valueError "math domain error")
      else .ok (.real (Real.log (n : ℝ)))
  | .logF, [.real x] =>
      if x ≤ 0 then .error (.valueError "math domain error")
      else .ok (.real (Real.log x))
  | .logF, [.inf] => .ok .inf
  | .logF, [.ninf] => .error (.valueError "math domain error")
  | .logF, [.nan] => .ok .nan
  | .logF, [v, w] =>
    (match toRQ v, toRQ w with
     | some x, some y =>
         if x ≤ 0 ∨ y ≤ 0 then .error (.valueError "math domain error")
         else if Real.log y = 0 then .error .zeroDiv
         else .ok (.real (Real.log x / Real.log y))
     | _, _ =>
         if isFnVal v || isFnVal w then .error (.typeError "must be a real number")
         else .ok .nan)
  | .gammaF, [.int n] =>
      if n ≤ 0 then .error (.valueError "math domain error")
      else .ok (.real (Real.Gamma (n : ℝ)))
  | .gammaF, [.real x] =>
      if x ≤ 0 ∧ Int.fract x = 0 then .error (.valueError "math domain error")
      else .ok (.real (Real.Gamma x))
  | .gammaF, [.inf] => .ok .inf
  | .gammaF, [.ninf] => .error (.valueError "math domain error")
  | .gammaF, [.nan] => .ok .nan
  | .floorF, [.int n] => .ok (.int n)
  | .floorF, [.real x] => .ok (.int (Int.floor x))
  | .floorF, [.inf] => .error (.overflowError "cannot convert float infinity to integer")
  | .floorF, [.ninf] => .error (.overflowError "cannot convert float infinity to integer")
  | .floorF, [.nan] => .error (.valueError "cannot convert float NaN to integer")
  | .ceilF, [.int n] => .ok (.int n)
  | .ceilF, [.real x] => .ok (.int (Int.ceil x))
  | .ceilF, [.inf] => .error (.overflowError "cannot convert float infinity to integer")
  | .ceilF, [.ninf] => .error (.overflowError "cannot convert float infinity to integer")
  | .ceilF, [.nan] => .error (.valueError "cannot convert float NaN to integer")
  | .fabsF, [.int n] => .ok (.real |(n : ℝ)|)
  | .fabsF, [.real x] => .ok (.real |x|)
  | .fabsF, [.inf] => .ok .inf
  | .fabsF, [.ninf] => .ok .inf
  | .fabsF, [.nan] => .ok .nan
  | .factorialF, [.int n] =>
      if n < 0 then .error (.valueError "factorial not defined for negative values")
      else .ok (.int (Nat.factorial n.toNat))
  | .absB, [.int n] => .ok (.int |n|)
  | .absB, [.real x] => .ok (.real |x|)
  | .absB, [.inf] => .ok .inf
  | .absB, [.ninf] => .ok .inf
  | .absB, [.nan] => .ok .nan
  | .roundB, [.int n] => .ok (.int n)
  | .roundB, [.real x] => .ok (.int (roundHalfEven x))
  | .roundB, [.nan] => .error (.valueError "cannot convert float NaN to integer")
  | .roundB, [.inf] => .error (.overflowError "cannot convert float infinity to integer")
  | .roundB, [.ninf] => .error (.overflowError "cannot convert float infinity to integer")
  | .minB, a :: b :: rest =>
      if (a :: b :: rest).any isFnVal then .error (.typeError "not supported between operands")
      else .ok ((b :: rest).foldl (fun acc v => if vlt v acc then v else acc) a)
  | .maxB, a :: b :: rest =>
      if (a :: b :: rest).any isFnVal then .error (.typeError "not supported between operands")
      else .ok ((b :: rest).foldl (fun acc v => if vlt acc v then v else acc) a)
  | .powB, [a, b] => binOp .pow a b
  | .other _, _ => .ok .nan
  | _, _ => .error (.typeError "wrong number of arguments")

mutual
/-- Evaluation of an expression against an environment, modelling
`eval(expr, {"__builtins__": {}}, _ALLOWED_NAMES)` on the covered fragment.
Operands are evaluated left to right and a call evaluates its callee (a name
lookup, raising `NameError` on a miss) before its arguments, as CPython does.
The fuel models CPython's recursion limit: exhaustion raises an error that
the wrapper normalizes like any `RecursionError`. -/
noncomputable def evalE (env : List (String × NameVal)) :
    Nat → Expr → Except PyExc Value
  | 0, _ => .error (.valueError "maximum recursion depth exceeded")
  | _ + 1, .num n => .ok (.int n)
  | _ + 1, .name s =>
    (match List.lookup s env with
     | some (.constV v) => .ok v
     | some (.fnV g) => .ok (.fnv g)
     | none => .error (.nameError s))
  | f + 1, .unop u e =>
    (match evalE env f e with
     | .error ex => .error ex
     | .ok v => unOp u v)
  | f + 1, .binop b l r =>
    (match evalE env f l with
     | .error ex => .error ex
     | .ok v1 =>
       match evalE env f r with
       | .error ex => .error ex
       | .ok v2 => binOp b v1 v2)
  | f + 1, .call g args =>
    (match List.lookup g env with
     | none => .error (.nameError g)
     | some (.constV _) => .error (.typeError "object is not callable")
     | some (.fnV fn) =>
       match evalArgs env f args with
       | .error ex => .error ex
       | .ok vs => applyFn fn vs)

/-- Left-to-right evaluation of an argument list. -/
noncomputable def evalArgs (env : List (String × NameVal)) :
    Nat → List Expr → Except PyExc (List Value)
  | 0, _ => .error (.valueError "maximum recursion depth exceeded")
  | _ + 1, [] => .ok []
  | f + 1, a :: as =>
    (match evalE env f a with
     | .error ex => .error ex
     | .ok v =>
       match evalArgs env f as with
       | .error ex => .error ex
       | .ok vs => .ok (v :: vs))
end

/-- The inner `eval` call of `safe_eval`: parse, then evaluate.  A parse
failure is Python's `SyntaxError` (also raised by `eval("")`). -/
noncomputable def runEval (env : List (String × NameVal)) (s : String) :
    Except PyExc Value :=
  match parse s with
  | none => .error (.syntaxError "invalid syntax (<string>, line 1)")
  | some e => evalE env (s.length + 1) e

/-- The function `safe_eval` of the source, parametrized by the
permitted-name table it reads: type check, denylist screen, then evaluation,
with `ZeroDivisionError` re-raised unchanged and every other exception
converted to `ValueError ("Invalid expression: " ++ str(e))`. -/
noncomputable def safeEvalWith (env : List (String × NameVal)) :
    PyInput → Except PyExc Value
  | .nonString _ => .error (.valueError "Expression must be a string.")
  | .str expr =>
    if hasForbidden expr then
      .error (.valueError "Unsafe token detected in expression.")
    else
      match runEval env expr with
      | .ok v => .ok v
      | .error .zeroDiv => .error .zeroDiv
      | .error ex => .error (.valueError ("Invalid expression: " ++ excMsg ex))

/-- `safe_eval` as the source exposes it, reading the module-level table. -/
noncomputable def safe_eval : PyInput → Except PyExc Value :=
  safeEvalWith _ALLOWED_NAMES

/-- One call of `safe_eval` viewed as a state transformer on the
permitted-name table: the source only reads `_ALLOWED_NAMES`, so the call
returns the table unchanged, which this definition makes explicit. -/
noncomputable def safeEvalCall (env : List (String × NameVal)) (x : PyInput) :
    Except PyExc Value × List (String × NameVal) :=
  (safeEvalWith env x, env)

/-- The spec's `DivisionByZero` failure class: the uncaught
`ZeroDivisionError`. -/
def IsDivisionByZero (ex : PyExc) : Prop := ex = .zeroDiv

/-- The spec's `UnsafeExpression` failure class: the `ValueError` raised by
the denylist screen, recognizable by its fixed message. -/
def IsUnsafeExpression (ex : PyExc) : Prop :=
  ex = .valueError "Unsafe token detected in expression."

/-- The spec's `InvalidExpression` failure class: the `ValueError` raised on
non-string input, or the normalized `ValueError` carrying
`"Invalid expression: "` plus the underlying cause. -/
def IsInvalidExpression (ex : PyExc) : Prop :=
  ex = .valueError "Expression must be a string." ∨
    ∃ m, ex = .valueError ("Invalid expression: " ++ m)

/-- The three failure classes of the evaluator's error taxonomy. -/
inductive FailureClass where
  | invalidExpression | unsafeExpression | divisionByZero
  deriving DecidableEq

/-- A caller-side classifier of the failures `safe_eval` can raise: it
inspects only the exception a caller receives (its type and message) and
names the failure class, witnessing that the three classes are
distinguishable. -/
def classOf : PyExc → Option FailureClass
  | .zeroDiv => some .divisionByZero
  | .valueError m =>
    if m = "Unsafe token detected in expression." then some .unsafeExpression
    else if m = "Expression must be a string." then some .invalidExpression
    else if startsWithL "Invalid expression: ".data m.data then
      some .invalidExpression
    else none
  | _ => none

/-- The expression contains a `/`, `//` or `%` whose divisor is the literal
`0` (the form of zero divisor the claims instantiate). -/
inductive HasZeroDivDiv : Expr → Prop where
  | here (b : BOp) (l : Expr)
      (hb : b = .div ∨ b = .floordiv ∨ b = .mod) :
      HasZeroDivDiv (.binop b l (.num 0))
  | binl (b : BOp) (l r : Expr) :
      HasZeroDivDiv l → HasZeroDivDiv (.binop b l r)
  | binr (b : BOp) (l r : Expr) :
      HasZeroDivDiv r → HasZeroDivDiv (.binop b l r)
  | un (u : UOp) (e : Expr) : HasZeroDivDiv e → HasZeroDivDiv (.unop u e)
  | arg (f : String) (args : List Expr) (a : Expr) :
      a ∈ args → HasZeroDivDiv a → HasZeroDivDiv (.call f args)

/-- The expression references the identifier `n` (as a bare name or as a
callee). -/
inductive MentionsName (n : String) : Expr → Prop where
  | here : MentionsName n (.name n)
  | callee (args : List Expr) : MentionsName n (.call n args)
  | binl (b : BOp) (l r : Expr) :
      MentionsName n l → MentionsName n (.binop b l r)
  | binr (b : BOp) (l r : Expr) :
      MentionsName n r → MentionsName n (.binop b l r)
  | un (u : UOp) (e : Expr) : MentionsName n e → MentionsName n (.unop u e)
  | arg (f : String) (args : List Expr) (a : Expr) :
      a ∈ args → MentionsName n a → MentionsName n (.call f args)

/-- Pure-integer expressions over `+ - *`, the fragment on which Python
integer arithmetic is exact and total; used to state that the evaluator
computes the mathematically correct result. -/
inductive IntExpr where
  | lit (n : Nat)
  | add (a b : IntExpr)
  | sub (a b : IntExpr)
  | mul (a b : IntExpr)

/-- Inclusion of `IntExpr` into the evaluator's AST. -/
def IntExpr.toExpr : IntExpr → Expr
  | .lit n => .num n
  | .add a b => .binop .add a.toExpr b.toExpr
  | .sub a b => .binop .sub a.toExpr b.toExpr
  | .mul a b => .binop .mul a.toExpr b.toExpr

/-- Reference mathematical semantics of a pure-integer expression. -/
def IntExpr.denote : IntExpr → ℤ
  | .lit n => n
  | .add a b => a.denote + b.denote
  | .sub a b => a.denote - b.denote
  | .mul a b => a.denote * b.denote

/-- Height of a pure-integer expression (enough fuel to evaluate it). -/
def IntExpr.depth : IntExpr → Nat
  | .lit _ => 1
  | .add a b => max a.depth b.depth + 1
  | .sub a b => max a.depth b.depth + 1
  | .mul a b => max a.depth b.depth + 1

/-- Failures of the local-repo publish helper: missing directory
(`FileNotFoundError` raised before any command), or the
`CalledProcessError` of the first command exiting non-zero
(`subprocess.run(..., check=True)`). -/
inductive GitFailure where
  | fileNotFound (path : String)
  | calledProcessError (cwd : String) (cmd : List String)
  deriving DecidableEq

/-- The fixed command sequence of `init_and_push_local_repo`
(source lines 242-249), in order. -/
def gitCmds (commitMessage repoUrl : String) : List (List String) :=
  [["git", "init"],
   ["git", "add", "--all"],
   ["git", "commit", "-m", commitMessage],
   ["git", "branch", "-M", "main"],
   ["git", "remote", "add", "origin", repoUrl],
   ["git", "push", "-u", "origin", "main"]]

/-- Sequential execution of commands in a working directory, against a world
`run` giving each command's exit status.  Returns the trace of the commands
actually invoked (with their working directory) and either success or the
failure of the first non-zero exit; nothing after a failing command runs. -/
def runSeq (run : String → List String → Int) (cwd : String) :
    List (List String) → List (String × List String) × Except GitFailure Unit
  | [] => ([], .ok ())
  | c :: cs =>
    if run cwd c = 0 then
      let r := runSeq run cwd cs
      ((cwd, c) :: r.1, r.2)
    else ([(cwd, c)], .error (.calledProcessError cwd c))

/-- The helper `init_and_push_local_repo`: checks that the local directory
exists (else `FileNotFoundError` before any command), then runs the fixed
command sequence in that directory, stopping at the first failure. -/
def init_and_push_local_repo (dirExists : Bool)
    (run : String → List String → Int)
    (localDir repoUrl commitMessage : String) :
    List (String × List String) × Except GitFailure Unit :=
  if dirExists then runSeq run localDir (gitCmds commitMessage repoUrl)
  else ([], .error (.fileNotFound localDir))

/-- Failures of the upload helper. -/
inductive UploadError where
  | runtimeError (msg : String)
  | fileNotFoundError (path : String)
  | requestError (msg : String)
  deriving DecidableEq

/-- External world of one `upload_file_to_stream` call: whether `requests`
is importable, whether the file exists, the outcome of the POST (a raised
error or a response body), and whether a body parses as JSON. -/
structure UploadWorld where
  requestsAvailable : Bool
  fileExists : Bool
  postOutcome : Except String String
  jsonOf : String → Option String

/-- Outcome of one `upload_file_to_stream` call, with the state of the file
handle the call opened: whether `p.open("rb")` ran, and whether
`files["file"][1].close()` ran before the call exited. -/
structure UploadRun where
  result : Except UploadError String
  fileOpened : Bool
  fileClosed : Bool

/-- The helper `upload_file_to_stream` (source lines 258-290), traced
faithfully: the file is opened, then the POST runs; only on the POST's
success path does the source reach the `close()` call; a raised POST error
propagates with the handle still open.  JSON parsing happens after the
close, with a raw-text fallback. -/
def upload_file_to_stream (w : UploadWorld) (filePath : String) : UploadRun :=
  if w.requestsAvailable = false then
    ⟨.error (.runtimeError "requests library required."), false, false⟩
  else if w.fileExists = false then
    ⟨.error (.fileNotFoundError filePath), false, false⟩
  else
    match w.postOutcome with
    | .error m => ⟨.error (.requestError m), true, false⟩
    | .ok body =>
      match w.jsonOf body with
      | some j => ⟨.ok j, true, true⟩
      | none => ⟨.ok body, true, true⟩

/-- A concrete world for the publish helper in which `git commit` exits 1
and every other command exits 0. -/
def run0 : String → List String → Int :=
  fun _ c => if c = ["git", "commit", "-m", "m1"] then 1 else 0

theorem strData_append (a b : String) : (a ++ b).data = a.data ++ b.data := by
  cases a; cases b; rfl

theorem startsWithL_append (p t : List Char) : startsWithL p (p ++ t) = true := by
  induction p with
  | nil => rfl
  | cons a as ih => simp [startsWithL, ih]

theorem unsafeMsg_ne_invalidMsg (m : String) :
    "Unsafe token detected in expression." ≠ "Invalid expression: " ++ m := by
  intro h
  have hd := congrArg String.data h
  rw [strData_append] at hd
  have h1 : ("Unsafe token detected in expression.".data).head? = some 'U' := rfl
  rw [hd] at h1
  have h2 : ("Invalid expression: ".data ++ m.data).head? = some 'I' := rfl
  exact absurd (h1.symm.trans h2) (by decide)

theorem mustStrMsg_ne_invalidMsg (m : String) :
    "Expression must be a string." ≠ "Invalid expression: " ++ m := by
  intro h
  have hd := congrArg String.data h
  rw [strData_append] at hd
  have h1 : ("Expression must be a string.".data).head? = some 'E' := rfl
  rw [hd] at h1
  have h2 : ("Invalid expression: ".data ++ m.data).head? = some 'I' := rfl
  exact absurd (h1.symm.trans h2) (by decide)

theorem classOf_invalidMsg (m : String) :
    classOf (.valueError ("Invalid expression: " ++ m)) = some .invalidExpression := by
  simp only [classOf]
  rw [if_neg (fun h => unsafeMsg_ne_invalidMsg m h.symm),
      if_neg (fun h => mustStrMsg_ne_invalidMsg m h.symm),
      if_pos]
  rw [strData_append]
  exact startsWithL_append _ _

theorem safeEval_screened (s : String) (h : hasForbidden s = true) :
    safe_eval (.str s) = .error (.valueError "Unsafe token detected in expression.") := by
  simp [safe_eval, safeEvalWith, h]

theorem safeEval_zeroDiv (s : String) (h1 : hasForbidden s = false)
    (h2 : runEval _ALLOWED_NAMES s = .error .zeroDiv) :
    safe_eval (.str s) = .error .zeroDiv := by
  simp [safe_eval, safeEvalWith, h1, h2]

theorem safeEval_otherErr (s : String) (ex : PyExc) (h1 : hasForbidden s = false)
    (h2 : runEval _ALLOWED_NAMES s = .error ex) (h3 : ex ≠ .zeroDiv) :
    safe_eval (.str s) =
      .error (.valueError ("Invalid expression: " ++ excMsg ex)) := by
  cases ex with
  | zeroDiv => exact absurd rfl h3
  | valueError m => simp [safe_eval, safeEvalWith, h1, h2]
  | nameError n => simp [safe_eval, safeEvalWith, h1, h2]
  | typeError m => simp [safe_eval, safeEvalWith, h1, h2]
  | syntaxError m => simp [safe_eval, safeEvalWith, h1, h2]
  | overflowError m => simp [safe_eval, safeEvalWith, h1, h2]

/-- C1 (amended): for every expression string that passes the denylist screen
and whose inner evaluation raises `ZeroDivisionError`, `safe_eval` fails with
the `DivisionByZero` class — the error is re-raised, never converted to
`InvalidExpression` — and in particular `1/0`, `1//0` and `1%0` each fail
with `DivisionByZero`. -/
theorem claim_C1 :
    (∀ s : String, hasForbidden s = false →
        runEval _ALLOWED_NAMES s = .error .zeroDiv →
        safe_eval (.str s) = .error .zeroDiv) ∧
    safe_eval (.str "1/0") = .error .zeroDiv ∧
    safe_eval (.str "1//0") = .error .zeroDiv ∧
    safe_eval (.str "1%0") = .error .zeroDiv ∧
    classOf .zeroDiv = some .divisionByZero ∧
    IsDivisionByZero .zeroDiv :=
  ⟨fun s h1 h2 => safeEval_zeroDiv s h1 h2, rfl, rfl, rfl, rfl, rfl⟩

/-- Witness for C1: the universal part applied to the concrete input `2/0`. -/
theorem claim_C1_witness : safe_eval (.str "2/0") = .error .zeroDiv :=
  claim_C1.1 "2/0" (by decide) (by rfl)

/-- Counterexample to C1 as stated: `1/0+__x` contains a division whose
divisor is the literal zero, yet `safe_eval` fails with the denylist's
`UnsafeExpression` error (the screen runs first), not with `DivisionByZero`. -/
theorem claim_C1_cex :
    parse "1/0+__x" =
      some (.binop .add (.binop .div (.num 1) (.num 0)) (.name "__x")) ∧
    HasZeroDivDiv (.binop .add (.binop .div (.num 1) (.num 0)) (.name "__x")) ∧
    safe_eval (.str "1/0+__x") =
      .error (.valueError "Unsafe token detected in expression.") ∧
    classOf (.valueError "Unsafe token detected in expression.") ≠
      some .divisionByZero ∧
    ¬ IsDivisionByZero (.valueError "Unsafe token detected in expression.") :=
  ⟨rfl, .binl _ _ _ (.here .div _ (Or.inl rfl)), rfl, by decide,
   fun h => PyExc.noConfusion h⟩

/-- C2: any input string containing one of the fixed forbidden substrings
(checked case-insensitively, anywhere in the string) fails with the
`UnsafeExpression` class; the string `s` is arbitrary — it need not parse,
so the screen's verdict precedes any parsing or evaluation. -/
theorem claim_C2 (s t : String) (ht : t ∈ forbidden)
    (hc : containsL t.data (pyLower s).data = true) :
    safe_eval (.str s) =
      .error (.valueError "Unsafe token detected in expression.") ∧
    IsUnsafeExpression (.valueError "Unsafe token detected in expression.") ∧
    classOf (.valueError "Unsafe token detected in expression.") =
      some .unsafeExpression :=
  have hf : hasForbidden s = true := List.any_eq_true.mpr ⟨t, ht, hc⟩
  ⟨safeEval_screened s hf, rfl, rfl⟩

/-- Witness for C2: `__import__(os)` contains the forbidden substring `__`
(and would not even reach evaluation). -/
theorem claim_C2_witness :
    safe_eval (.str "__import__(os)") =
      .error (.valueError "Unsafe token detected in expression.") :=
  (claim_C2 "__import__(os)" "__" (by decide) (by decide)).1

/-- C4 (amended): for every expression string that passes the denylist
screen and whose inner evaluation raises any exception other than
`ZeroDivisionError`, `safe_eval` fails with the `InvalidExpression` class,
carrying `"Invalid expression: "` plus the underlying cause's message; in
particular a reference to an identifier outside the permitted table
(`foo(1)`, `globals()`) raises `NameError` and is normalized this way, as is
a domain error such as `sqrt(-1)`. -/
theorem claim_C4 :
    (∀ (s : String) (ex : PyExc), hasForbidden s = false →
        runEval _ALLOWED_NAMES s = .error ex → ex ≠ .zeroDiv →
        safe_eval (.str s) =
          .error (.valueError ("Invalid expression: " ++ excMsg ex)) ∧
        IsInvalidExpression
          (.valueError ("Invalid expression: " ++ excMsg ex))) ∧
    safe_eval (.str "foo(1)") =
      .error (.valueError ("Invalid expression: " ++ excMsg (.nameError "foo"))) ∧
    safe_eval (.str "globals()") =
      .error (.valueError ("Invalid expression: " ++ excMsg (.nameError "globals"))) ∧
    safe_eval (.str "sqrt(-1)") =
      .error (.valueError ("Invalid expression: " ++ "math domain error")) ∧
    (List.lookup "foo" _ALLOWED_NAMES).isNone = true ∧
    (List.lookup "globals" _ALLOWED_NAMES).isNone = true :=
  ⟨fun s ex h1 h2 h3 =>
    ⟨safeEval_otherErr s ex h1 h2 h3, Or.inr ⟨excMsg ex, rfl⟩⟩,
   rfl, rfl, rfl, by decide, by decide⟩

/-- Witness for C4: the universal part applied to the concrete input `bar`,
whose evaluation raises `NameError`. -/
theorem claim_C4_witness :
    safe_eval (.str "bar") =
      .error (.valueError ("Invalid expression: " ++ excMsg (.nameError "bar"))) :=
  (claim_C4.1 "bar" (.nameError "bar") (by decide) (by rfl) (by decide)).1

/-- Counterexample to C4 as stated: `1/0+foo` references the identifier
`foo`, which is outside the permitted table, yet `safe_eval` fails with
`DivisionByZero` (the left operand's `ZeroDivisionError` is raised before
the name is ever looked up), not with `InvalidExpression`. -/
theorem claim_C4_cex :
    parse "1/0+foo" =
      some (.binop .add (.binop .div (.num 1) (.num 0)) (.name "foo")) ∧
    MentionsName "foo" (.binop .add (.binop .div (.num 1) (.num 0)) (.name "foo")) ∧
    (List.lookup "foo" _ALLOWED_NAMES).isNone = true ∧
    safe_eval (.str "1/0+foo") = .error .zeroDiv ∧
    ¬ IsInvalidExpression .zeroDiv :=
  ⟨rfl, .binr _ _ _ .here, by decide, rfl,
   fun h => by rcases h with h | ⟨m, h⟩ <;> cases h⟩

/-- C6: non-string inputs and the empty string both fail with the
`InvalidExpression` class (the former via the explicit type check, the
latter because `eval("")` raises `SyntaxError`, which the wrapper
normalizes); neither is an `UnsafeExpression` failure. -/
theorem claim_C6 :
    (∀ tag : String,
      safe_eval (.nonString tag) =
        .error (.valueError "Expression must be a string.") ∧
      IsInvalidExpression (.valueError "Expression must be a string.") ∧
      classOf (.valueError "Expression must be a string.") =
        some .invalidExpression) ∧
    safe_eval (.str "") =
      .error (.valueError ("Invalid expression: " ++ "invalid syntax (<string>, line 1)")) ∧
    IsInvalidExpression
      (.valueError ("Invalid expression: " ++ "invalid syntax (<string>, line 1)")) ∧
    ¬ IsUnsafeExpression (.valueError "Expression must be a string.") ∧
    ¬ IsUnsafeExpression
      (.valueError ("Invalid expression: " ++ "invalid syntax (<string>, line 1)")) :=
  ⟨fun _ => ⟨rfl, Or.inl rfl, rfl⟩,
   rfl, Or.inr ⟨"invalid syntax (<string>, line 1)", rfl⟩,
   fun h => by simp [IsUnsafeExpression] at h,
   fun h => absurd (PyExc.valueError.inj h) (unsafeMsg_ne_invalidMsg _).symm⟩

/-- Witness for C6: a concrete non-string input. -/
theorem claim_C6_witness :
    safe_eval (.nonString "intObject") =
      .error (.valueError "Expression must be a string.") :=
  (claim_C6.1 "intObject").1

/-- C3: the three failure classes of the evaluator are pairwise
distinguishable by the caller: the pure function `classOf`, reading only the
received exception, maps each class to a distinct tag (so no exception can
belong to two classes), and each class is realized by an actual
`safe_eval` failure. -/
theorem claim_C3 :
    (∀ ex : PyExc, IsDivisionByZero ex → classOf ex = some .divisionByZero) ∧
    (∀ ex : PyExc, IsUnsafeExpression ex → classOf ex = some .unsafeExpression) ∧
    (∀ ex : PyExc, IsInvalidExpression ex → classOf ex = some .invalidExpression) ∧
    (∀ ex : PyExc, ¬ (IsDivisionByZero ex ∧ IsUnsafeExpression ex)) ∧
    (∀ ex : PyExc, ¬ (IsDivisionByZero ex ∧ IsInvalidExpression ex)) ∧
    (∀ ex : PyExc, ¬ (IsUnsafeExpression ex ∧ IsInvalidExpression ex)) ∧
    safe_eval (.str "2//0") = .error .zeroDiv ∧
    safe_eval (.str "exec(2)") =
      .error (.valueError "Unsafe token detected in expression.") ∧
    safe_eval (.str "(") =
      .error (.valueError ("Invalid expression: " ++ "invalid syntax (<string>, line 1)")) := by
  have hdiv : ∀ ex : PyExc, IsDivisionByZero ex →
      classOf ex = some .divisionByZero := by
    intro ex h; rw [h]; rfl
  have huns : ∀ ex : PyExc, IsUnsafeExpression ex →
      classOf ex = some .unsafeExpression := by
    intro ex h; rw [h]; rfl
  have hinv : ∀ ex : PyExc, IsInvalidExpression ex →
      classOf ex = some .invalidExpression := by
    intro ex h
    rcases h with h | ⟨m, h⟩
    · rw [h]; rfl
    · rw [h]; exact classOf_invalidMsg m
  refine ⟨hdiv, huns, hinv, ?_, ?_, ?_, rfl, rfl, rfl⟩
  · intro ex ⟨h1, h2⟩
    exact absurd ((hdiv ex h1).symm.trans (huns ex h2)) (by decide)
  · intro ex ⟨h1, h2⟩
    exact absurd ((hdiv ex h1).symm.trans (hinv ex h2)) (by decide)
  · intro ex ⟨h1, h2⟩
    exact absurd ((huns ex h1).symm.trans (hinv ex h2)) (by decide)

/-- Witness for C3: the classifier applied to the failure `safe_eval`
raises on `2//0`. -/
theorem claim_C3_witness : classOf .zeroDiv = some .divisionByZero :=
  claim_C3.1 .zeroDiv rfl

theorem intExpr_evalE (env : List (String × NameVal)) (e : IntExpr) :
    ∀ f : Nat, e.depth ≤ f → evalE env f e.toExpr = .ok (.int e.denote) := by
  induction e with
  | lit n =>
    intro f hf
    match f, hf with
    | f' + 1, _ => rfl
  | add a b iha ihb =>
    intro f hf
    match f, hf with
    | f' + 1, hf =>
      have ha : a.depth ≤ f' := by
        have := Nat.succ_le_succ_iff.mp hf
        omega
      have hb : b.depth ≤ f' := by
        have := Nat.succ_le_succ_iff.mp hf
        omega
      simp only [IntExpr.toExpr, evalE, iha f' ha, ihb f' hb, IntExpr.denote]
      rfl
  | sub a b iha ihb =>
    intro f hf
    match f, hf with
    | f' + 1, hf =>
      have ha : a.depth ≤ f' := by
        have := Nat.succ_le_succ_iff.mp hf
        omega
      have hb : b.depth ≤ f' := by
        have := Nat.succ_le_succ_iff.mp hf
        omega
      simp only [IntExpr.toExpr, evalE, iha f' ha, ihb f' hb, IntExpr.denote]
      rfl
  | mul a b iha ihb =>
    intro f hf
    match f, hf with
    | f' + 1, hf =>
      have ha : a.depth ≤ f' := by
        have := Nat.succ_le_succ_iff.mp hf
        omega
      have hb : b.depth ≤ f' := by
        have := Nat.succ_le_succ_iff.mp hf
        omega
      simp only [IntExpr.toExpr, evalE, iha f' ha, ihb f' hb, IntExpr.denote]
      rfl

/-- C5: the evaluator returns the mathematically correct result on
well-formed arithmetic over permitted operators and names: the spec's six
sample expressions evaluate to their exact mathematical values (Python
int/float typing included), and on the whole pure-integer `+ - *` fragment
the evaluator agrees with the reference semantics `IntExpr.denote`. -/
theorem claim_C5 :
    safe_eval (.str "2+2") = .ok (.int 4) ∧
    safe_eval (.str "10 % 3") = .ok (.int 1) ∧
    safe_eval (.str "2**10") = .ok (.int 1024) ∧
    safe_eval (.str "pow(2,8)") = .ok (.int 256) ∧
    safe_eval (.str "sqrt(16)") = .ok (.real 4) ∧
    safe_eval (.str "sin(pi/2) + cos(0)") = .ok (.real 2) ∧
    ∀ e : IntExpr,
      evalE _ALLOWED_NAMES e.depth e.toExpr = .ok (.int e.denote) := by
  have hsqrt : Real.sqrt ((16 : ℤ) : ℝ) = 4 := by
    rw [show ((16 : ℤ) : ℝ) = (4 : ℝ) ^ 2 by norm_num]
    exact Real.sqrt_sq (by norm_num)
  have htrig :
      Real.sin (Real.pi / ((2 : ℤ) : ℝ)) + Real.cos ((0 : ℤ) : ℝ) = 2 := by
    rw [show ((2 : ℤ) : ℝ) = 2 by norm_num, show ((0 : ℤ) : ℝ) = 0 by norm_num,
        Real.sin_pi_div_two, Real.cos_zero]
    norm_num
  refine ⟨rfl, rfl, rfl, rfl, ?_, ?_, fun e => intExpr_evalE _ e e.depth le_rfl⟩
  · calc safe_eval (.str "sqrt(16)")
        = .ok (.real (Real.sqrt ((16 : ℤ) : ℝ))) := rfl
      _ = .ok (.real 4) := by rw [hsqrt]
  · calc safe_eval (.str "sin(pi/2) + cos(0)")
        = .ok (.real (Real.sin (Real.pi / ((2 : ℤ) : ℝ)) +
            Real.cos ((0 : ℤ) : ℝ))) := rfl
      _ = .ok (.real 2) := by rw [htrig]

/-- Witness for C5: the integer-fragment statement evaluated at `6 * 7`. -/
theorem claim_C5_witness :
    evalE _ALLOWED_NAMES
        (IntExpr.depth (.mul (.lit 6) (.lit 7)))
        (IntExpr.toExpr (.mul (.lit 6) (.lit 7))) = .ok (.int 42) :=
  claim_C5.2.2.2.2.2.2 (.mul (.lit 6) (.lit 7))

/-- C7: `safe_eval` is deterministic and stateless.  A call, viewed as a
state transformer on the permitted-name table it reads, returns the table
unchanged (the source never writes to `_ALLOWED_NAMES`), so a second call
with the same input — run in the state the first call left — returns the
same result. -/
theorem claim_C7 (env : List (String × NameVal)) (x : PyInput) :
    (safeEvalCall env x).2 = env ∧
    (safeEvalCall (safeEvalCall env x).2 x).1 = (safeEvalCall env x).1 ∧
    safeEvalCall env x = (safeEvalWith env x, env) :=
  ⟨rfl, rfl, rfl⟩

/-- Witness for C7: two successive calls on a concrete input leave the
module table unchanged. -/
theorem claim_C7_witness :
    (safeEvalCall _ALLOWED_NAMES (.str "2+2")).2 = _ALLOWED_NAMES :=
  (claim_C7 _ALLOWED_NAMES (.str "2+2")).1

/-- C8: the file handle of the upload helper.  On the success path the
handle is opened and closed, but on the path where the HTTP POST raises, the
handle is opened and never closed — the source closes it by a manual
`close()` after the POST rather than by scoped acquisition, so the claimed
"closed on every exit path" is violated by the code. -/
theorem claim_C8 :
    (upload_file_to_stream ⟨true, true, .ok "resp", fun _ => none⟩ "f.txt").fileOpened = true ∧
    (upload_file_to_stream ⟨true, true, .ok "resp", fun _ => none⟩ "f.txt").fileClosed = true ∧
    (upload_file_to_stream ⟨true, true, .error "ConnectionError", fun _ => none⟩ "f.txt").fileOpened = true ∧
    (upload_file_to_stream ⟨true, true, .error "ConnectionError", fun _ => none⟩ "f.txt").fileClosed = false ∧
    (upload_file_to_stream ⟨true, true, .error "ConnectionError", fun _ => none⟩ "f.txt").result =
      .error (.requestError "ConnectionError") :=
  ⟨rfl, rfl, rfl, rfl, rfl⟩

theorem runSeq_all_zero (run : String → List String → Int) (cwd : String) :
    ∀ cs : List (List String), (∀ c ∈ cs, run cwd c = 0) →
      runSeq run cwd cs = (cs.map (fun c => (cwd, c)), .ok ()) := by
  intro cs
  induction cs with
  | nil => intro _; rfl
  | cons c cs ih =>
    intro h
    have hc : run cwd c = 0 := h c (by simp)
    have hrest := ih (fun d hd => h d (by simp [hd]))
    simp only [runSeq, hc, if_pos, hrest, List.map_cons]

theorem runSeq_first_fail (run : String → List String → Int) (cwd : String) :
    ∀ (pre : List (List String)) (c : List String) (post : List (List String)),
      (∀ d ∈ pre, run cwd d = 0) → run cwd c ≠ 0 →
      runSeq run cwd (pre ++ c :: post) =
        ((pre ++ [c]).map (fun d => (cwd, d)),
         .error (.calledProcessError cwd c)) := by
  intro pre
  induction pre with
  | nil =>
    intro c post _ hc
    simp [runSeq, hc]
  | cons d ds ih =>
    intro c post hpre hc
    have hd : run cwd d = 0 := hpre d (by simp)
    have hrest := ih c post (fun d2 h2 => hpre d2 (by simp [h2])) hc
    simp [runSeq, hd, hrest]

/-- C9: the publish helper runs exactly the fixed six-command sequence
(`init`, `add --all`, `commit`, `branch -M main`, `remote add origin`,
`push`) in order in the given directory; if every command exits zero the
whole sequence runs and the call succeeds; if some command is the first to
exit non-zero, the trace stops at that command (nothing later runs) and its
failure propagates to the caller; and if the local directory does not exist
the call fails before running any command. -/
theorem claim_C9 (run : String → List String → Int)
    (localDir repoUrl commitMessage : String) :
    init_and_push_local_repo false run localDir repoUrl commitMessage =
      ([], .error (.fileNotFound localDir)) ∧
    ((∀ c ∈ gitCmds commitMessage repoUrl, run localDir c = 0) →
      init_and_push_local_repo true run localDir repoUrl commitMessage =
        ((gitCmds commitMessage repoUrl).map (fun c => (localDir, c)),
         .ok ())) ∧
    (∀ (pre : List (List String)) (c : List String) (post : List (List String)),
      gitCmds commitMessage repoUrl = pre ++ c :: post →
      (∀ d ∈ pre, run localDir d = 0) → run localDir c ≠ 0 →
      init_and_push_local_repo true run localDir repoUrl commitMessage =
        ((pre ++ [c]).map (fun d => (localDir, d)),
         .error (.calledProcessError localDir c))) := by
  refine ⟨rfl, ?_, ?_⟩
  · intro hall
    show runSeq run localDir (gitCmds commitMessage repoUrl) = _
    exact runSeq_all_zero run localDir _ hall
  · intro pre c post heq hpre hc
    show runSeq run localDir (gitCmds commitMessage repoUrl) = _
    rw [heq]
    exact runSeq_first_fail run localDir pre c post hpre hc

/-- Witness for C9: in the world `run0`, where `git commit` exits 1, the
helper runs `git init`, `git add --all`, `git commit` and nothing after, and
propagates the commit's failure. -/
theorem claim_C9_witness :
    init_and_push_local_repo true run0 "d" "u" "m1" =
      (([["git", "init"], ["git", "add", "--all"],
         ["git", "commit", "-m", "m1"]]).map (fun d => ("d", d)),
       .error (.calledProcessError "d" ["git", "commit", "-m", "m1"])) :=
  (claim_C9 run0 "d" "u" "m1").2.2
    [["git", "init"], ["git", "add", "--all"]]
    ["git", "commit", "-m", "m1"]
    [["git", "branch", "-M", "main"], ["git", "remote", "add", "origin", "u"],
     ["git", "push", "-u", "origin", "main"]]
    (by rfl) (by decide) (by decide)

theorem lookup_isSome_iff (k : String) :
    ∀ l : List (String × NameVal),
      (List.lookup k l).isSome = true ↔ k ∈ l.map Prod.fst := by
  intro l
  induction l with
  | nil => simp [List.lookup]
  | cons p ps ih =>
    obtain ⟨a, v⟩ := p
    by_cases h : k = a
    · subst h; simp [List.lookup]
    · have hne : (k == a) = false := beq_false_of_ne h
      simp [List.lookup, hne, ih, h]

/-- C10: the permitted-name table accepts exactly the non-underscore-prefixed
public names of the `math` module plus `abs`, `round`, `min`, `max`, `pow`;
consequently names the spec does not enumerate — `tau`, `inf`, `nan`,
`gamma` — are accepted and evaluate to their `math`-module values
(`tau = 2π`, the non-finite floats, `gamma(5) = 24.0`) rather than failing
with `InvalidExpression`. -/
theorem claim_C10 :
    (∀ k : String, (List.lookup k _ALLOWED_NAMES).isSome = true ↔
        (k ∈ extraBuiltins.map Prod.fst ∨ k ∈ mathPublicNames)) ∧
    "tau" ∈ mathPublicNames ∧ "inf" ∈ mathPublicNames ∧
    "nan" ∈ mathPublicNames ∧ "gamma" ∈ mathPublicNames ∧
    safe_eval (.str "tau") = .ok (.real (2 * Real.pi)) ∧
    safe_eval (.str "inf") = .ok .inf ∧
    safe_eval (.str "nan") = .ok .nan ∧
    safe_eval (.str "gamma(5)") = .ok (.real 24) := by
  have hgamma : Real.Gamma ((5 : ℤ) : ℝ) = 24 := by
    rw [show ((5 : ℤ) : ℝ) = ((4 : ℕ) : ℝ) + 1 by norm_num,
        Real.Gamma_nat_eq_factorial]
    norm_num [Nat.factorial]
  refine ⟨?_, by decide, by decide, by decide, by decide, rfl, rfl, rfl, ?_⟩
  · intro k
    rw [lookup_isSome_iff]
    show k ∈ (extraBuiltins ++ mathPublicNames.map
      (fun k => (k, mathAttr k))).map Prod.fst ↔ _
    rw [List.map_append, List.mem_append, List.map_map]
    simp [Function.comp]
  · calc safe_eval (.str "gamma(5)")
        = .ok (.real (Real.Gamma ((5 : ℤ) : ℝ))) := rfl
      _ = .ok (.real 24) := by rw [hgamma]

/-- Witness for C10: `tau` is accepted by the table. -/
theorem claim_C10_witness :
    (List.lookup "tau" _ALLOWED_NAMES).isSome = true :=
  (claim_C10.1 "tau").mpr (Or.inr (by decide))
